import Mathlib

/-!
Verification of the streaming chat backend (FastAPI service).

The development shallowly embeds the parts of the code that the checked
properties talk about:

* `app/services/sentiment.py` — `SentimentResult`, `CumulativeState`,
  `score_to_label`, and `IncrementalSentimentAnalyzer.update` (scores are
  modelled as exact rationals; the outcome of the incremental LLM call is an
  explicit `Except String (Option IncrementalLLMReply)` parameter:
  `Except.error e` models the call raising an exception with text `e`,
  `Except.ok none` models an empty response body, `Except.ok (some r)` a
  parsed JSON reply).
* `app/services/rate_limit.py` — `RateLimitService._check_limit` and its
  three wrappers (the Redis pipeline outcome is an explicit
  `Except String Nat` parameter carrying the post-insertion ZCARD count).
* `app/services/chat.py` — `sse_event` and
  `ChatOrchestrator.process_chat_stream`, modelled as a pure function from a
  `ChatScript` (the outcomes of every external call the generator performs,
  in program order) to the emitted SSE event trace plus the persistence
  effects of the run.
-/

namespace LiaBackend

/-- Result of sentiment analysis (`SentimentResult` dataclass in
`app/services/sentiment.py`).  Scores are exact rationals. -/
structure SentimentResult where
  score : Rat
  label : String
  source : String
  emotion : Option String := none
  summary : Option String := none
  details : Option (List (String × String)) := none
deriving Repr, DecidableEq

/-- `SentimentResult.score_to_label`: score threshold mapping
(`> 0.1` positive, `< -0.1` negative, otherwise neutral). -/
def score_to_label (score : Rat) : String :=
  if score > (1 : Rat) / 10 then "Positive"
  else if score < -((1 : Rat) / 10) then "Negative"
  else "Neutral"

/-- `SentimentResult.neutral()`. -/
def SentimentResult.neutral : SentimentResult :=
  { score := 0, label := "Neutral", source := "default", emotion := some "neutral" }

/-- State for incremental cumulative sentiment tracking
(`CumulativeState` dataclass). -/
structure CumulativeState where
  summary : String := ""
  score : Rat := 0
  count : Nat := 0
  label : String := "Neutral"
deriving Repr, DecidableEq

/-- `CumulativeState.from_dict`: a missing or empty persisted blob yields the
default state; otherwise the stored fields are restored. -/
def CumulativeState.from_dict : Option CumulativeState → CumulativeState
  | none => {}
  | some st => st

/-- Parsed JSON reply of the incremental cumulative-sentiment LLM call
(`IncrementalSentimentSchema`): raw score (clamped by the caller), optional
label (the code substitutes `score_to_label` when absent) and raw summary
(truncated to 100 characters by the caller). -/
structure IncrementalLLMReply where
  score : Rat
  label : Option String := none
  summary : String := ""
deriving Repr, DecidableEq

/-- Clamping used on all LLM-returned scores:
`max(-1.0, min(1.0, score))`. -/
def clamp_score (x : Rat) : Rat := max (-1) (min 1 x)

/-- The weighted running-average fallback block of
`IncrementalSentimentAnalyzer.update` (the block appears verbatim twice in
the source, for the non-gemini path and for the LLM-failure path):
`new_score = (score·count + message_score·1) / (count+1)`, label via
`score_to_label`, summary kept, count incremented. -/
def weighted_average_fallback (current_state : CumulativeState)
    (message_sentiment : SentimentResult) : SentimentResult × CumulativeState :=
  let old_weight : Rat := current_state.count
  let new_weight : Rat := 1
  let total : Rat := old_weight + new_weight
  let new_score : Rat :=
    (current_state.score * old_weight + message_sentiment.score * new_weight) / total
  let new_label := score_to_label new_score
  let new_state : CumulativeState :=
    { summary := current_state.summary
      score := new_score
      count := current_state.count + 1
      label := new_label }
  ({ score := new_score
     label := new_label
     summary := some current_state.summary
     source := "incremental_fallback" }, new_state)

/-- The advance-count block of `IncrementalSentimentAnalyzer.update` (also
verbatim twice in the source): no message sentiment and no usable LLM reply,
so the state is returned unchanged except for `count + 1`. -/
def advance_unchanged (current_state : CumulativeState) :
    SentimentResult × CumulativeState :=
  ({ score := current_state.score
     label := current_state.label
     summary := some current_state.summary
     source := "incremental_unchanged" },
   { summary := current_state.summary
     score := current_state.score
     count := current_state.count + 1
     label := current_state.label })

/-- Python string lowercasing of a label (`label.lower()`); the labels in
play are ASCII. -/
def lower_label (label : String) : String := label.toLower

/-- `message_sentiment.emotion or message_sentiment.label.lower()`:
Python `or` falls through on a missing or empty emotion. -/
def emotion_or_label (ms : SentimentResult) : String :=
  match ms.emotion with
  | some e => if e = "" then lower_label ms.label else e
  | none => lower_label ms.label

/-- `IncrementalSentimentAnalyzer.update` from
`app/services/sentiment.py`.  Control flow mirrors the source:

1. non-gemini provider: weighted average when a message sentiment exists,
   otherwise advance the count;
2. gemini, `count == 0` and a message sentiment: seed directly;
3. gemini otherwise: attempt the incremental LLM call (`llm_call` is its
   outcome); on a parsed reply use it (clamped score, defaulted label,
   truncated summary); on an exception or empty reply fall back to the
   weighted average, or advance the count when no message sentiment exists.

The new-message text only feeds the LLM prompt, and `model` only the call
and the `details` metadata. -/
def IncrementalSentimentAnalyzer.update (new_message : String)
    (current_state : CumulativeState) (message_sentiment : Option SentimentResult)
    (provider : String) (model : String)
    (llm_call : Except String (Option IncrementalLLMReply)) :
    SentimentResult × CumulativeState :=
  if provider ≠ "gemini" then
    match message_sentiment with
    | some ms => weighted_average_fallback current_state ms
    | none => advance_unchanged current_state
  else
    match current_state.count, message_sentiment with
    | 0, some ms =>
      let seed_summary := "User is " ++ emotion_or_label ms
      ({ score := ms.score
         label := ms.label
         emotion := ms.emotion
         summary := some seed_summary
         source := "incremental" },
       { summary := seed_summary
         score := ms.score
         count := 1
         label := ms.label })
    | _, _ =>
      match llm_call with
      | Except.ok (some reply) =>
        let score := clamp_score reply.score
        let label := reply.label.getD (score_to_label score)
        let summary := reply.summary.take 100
        ({ score := score
           label := label
           summary := some summary
           source := "incremental"
           details := some [("provider", provider), ("model", model)] },
         { summary := summary
           score := score
           count := current_state.count + 1
           label := label })
      | _ =>
        match message_sentiment with
        | some ms => weighted_average_fallback current_state ms
        | none => advance_unchanged current_state

/-! ## Sliding-window rate limiter (`app/services/rate_limit.py`) -/

/-- The sliding window length in seconds (`self._window_seconds = 60`). -/
def window_seconds : Nat := 60

/-- The post-insertion window count computed by the Redis pipeline of
`RateLimitService._check_limit`: `ZREMRANGEBYSCORE key 0 window_start` keeps
only entries strictly newer than `now - 60`, `ZADD` inserts one uniquely
tagged entry for this request, and `ZCARD` counts the set. -/
def redis_window_count (entries : List Int) (now : Int) : Nat :=
  (entries.filter (fun t => now - (window_seconds : Int) < t)).length + 1

/-- `RateLimitService._check_limit`.  `store` is the outcome of the Redis
pipeline round-trip: `Except.ok count` is the ZCARD result with the store
reachable, `Except.error e` any raised exception (store unreachable).
Returns `(allowed, remaining)`. -/
def RateLimitService.check_limit (enabled : Bool)
    (store : Except String Nat) (limit : Nat) (fail_closed : Bool) :
    Bool × Int :=
  if !enabled then (true, -1)
  else
    match store with
    | Except.ok count => (decide (count ≤ limit), max 0 ((limit : Int) - (count : Int)))
    | Except.error _ => if fail_closed then (false, 0) else (true, -1)

/-- `RateLimitService.check_general_limit` (fail-open). -/
def RateLimitService.check_general_limit (enabled : Bool)
    (store : Except String Nat) (general_limit : Nat) : Bool × Int :=
  RateLimitService.check_limit enabled store general_limit false

/-- `RateLimitService.check_chat_limit` (fail-open). -/
def RateLimitService.check_chat_limit (enabled : Bool)
    (store : Except String Nat) (chat_limit : Nat) : Bool × Int :=
  RateLimitService.check_limit enabled store chat_limit false

/-- `RateLimitService.check_auth_limit` (fail-closed). -/
def RateLimitService.check_auth_limit (enabled : Bool)
    (store : Except String Nat) (auth_limit : Nat) : Bool × Int :=
  RateLimitService.check_limit enabled store auth_limit true

/-! ## SSE events and the chat pipeline (`app/services/chat.py`) -/

/-- `sse_event` from `app/services/chat.py`: frames an already serialized
JSON payload as one Server-Sent Event. -/
def sse_event (event_type : String) (data : String) : String :=
  "event: " ++ event_type ++ "\ndata: " ++ data ++ "\n\n"

/-- The SSE events `process_chat_stream` emits, at the level of their
constructor and payload data (serialization is `sse_event` plus JSON). -/
inductive SSEEvent where
  | start (conversation_id : String) (message_id : Nat)
  | chunk (content : String)
  | thought (content : String)
  | sentiment (message : Option SentimentResult) (cumulative : Option SentimentResult)
  | done (finish_reason : String)
  | error (message : String)
deriving Repr, DecidableEq

/-- The `event:` type string of an event. -/
def SSEEvent.event_type : SSEEvent → String
  | .start _ _ => "start"
  | .chunk _ => "chunk"
  | .thought _ => "thought"
  | .sentiment _ _ => "sentiment"
  | .done _ => "done"
  | .error _ => "error"

/-- Whether an event is a `chunk` or `thought` forwarded from the provider
stream. -/
def SSEEvent.is_stream_content : SSEEvent → Bool
  | .chunk _ => true
  | .thought _ => true
  | _ => false

/-- Whether an event is a `start` event. -/
def SSEEvent.is_start : SSEEvent → Bool
  | .start _ _ => true
  | _ => false

/-- Whether an event is an `error` event. -/
def SSEEvent.is_error : SSEEvent → Bool
  | .error _ => true
  | _ => false

/-- One chunk of the plain provider stream, as the orchestrator reads it
(`content`, `is_thought`, `is_final`). -/
structure StreamChunk where
  content : String
  is_thought : Bool := false
  is_final : Bool := false
deriving Repr, DecidableEq

/-- One chunk of the structured provider stream
(`StructuredStreamChunk`): additionally carries the sentiment fields that
the final chunk holds. -/
structure StructuredStreamChunk where
  content : String
  is_thought : Bool := false
  is_final : Bool := false
  sentiment_score : Option Rat := none
  sentiment_label : Option String := none
  sentiment_emotion : Option String := none
deriving Repr, DecidableEq

/-- The `async for chunk in adapter.generate_stream(...)` loop of
`process_chat_stream`: each chunk with nonempty content is forwarded as a
`thought` or `chunk` event and accumulated (thoughts separately from the
visible response); the loop breaks at the first `is_final` chunk.  `failure`
is an exception the provider raises after delivering `chunks`; it only
surfaces when no `is_final` chunk stopped the loop first.  Returns the
forwarded events, the accumulated response, the accumulated thoughts and
the exception text that escaped the loop, if any. -/
def consume_stream (chunks : List StreamChunk) (failure : Option String) :
    List SSEEvent × String × List String × Option String :=
  match chunks with
  | [] => ([], "", [], failure)
  | c :: rest =>
    let tail := if c.is_final then ([], "", [], none) else consume_stream rest failure
    if c.content = "" then tail
    else if c.is_thought then
      (SSEEvent.thought c.content :: tail.1, tail.2.1, c.content :: tail.2.2.1, tail.2.2.2)
    else (SSEEvent.chunk c.content :: tail.1, c.content ++ tail.2.1, tail.2.2.1, tail.2.2.2)

/-- The structured-stream loop of `process_chat_stream`: like
`consume_stream`, but the first `is_final` chunk additionally produces the
message sentiment (`sentiment_score or 0.0`, `sentiment_label or "Neutral"`,
source `"structured"`, provider and model in the details). -/
def consume_structured (chunks : List StructuredStreamChunk) (failure : Option String)
    (provider : String) (model : String) :
    List SSEEvent × String × List String × Option SentimentResult × Option String :=
  match chunks with
  | [] => ([], "", [], none, failure)
  | c :: rest =>
    let tail :=
      if c.is_final then
        ([], "", [],
         some { score := c.sentiment_score.getD 0
                label := (match c.sentiment_label with
                  | some l => if l = "" then "Neutral" else l
                  | none => "Neutral")
                emotion := c.sentiment_emotion
                source := "structured"
                details := some [("provider", provider), ("model", model)] },
         none)
      else consume_structured rest failure provider model
    if c.content = "" then tail
    else if c.is_thought then
      (SSEEvent.thought c.content :: tail.1, tail.2.1, c.content :: tail.2.2.1,
       tail.2.2.2.1, tail.2.2.2.2)
    else (SSEEvent.chunk c.content :: tail.1, c.content ++ tail.2.1, tail.2.2.1,
          tail.2.2.2.1, tail.2.2.2.2)

/-- Data established by the pre-`start` phase of `process_chat_stream`
(conversation resolution, context load, user-message insert and flush). -/
structure PreStart where
  conversation_id : String
  user_message_id : Nat
  sentiment_state : Option CumulativeState
deriving Repr, DecidableEq

/-- The outcomes of every external call one invocation of
`process_chat_stream` performs, in program order.  Each `Except.error e` /
`some e` models the corresponding awaited operation raising an exception
whose `str(e)` is `e`. -/
structure ChatScript where
  message : String
  provider : String := "gemini"
  model : String := "gemini-2.5-flash"
  sentiment_method : String := "llm_separate"
  /-- conversation get-or-create, context load, title derivation and
  user-message insert+flush, jointly (everything before the `start` yield) -/
  pre_start : Except String PreStart
  /-- `self.llm_service.get_adapter(provider)` -/
  get_adapter_failure : Option String := none
  /-- structured-path stream contents and trailing failure -/
  struct_chunks : List StructuredStreamChunk := []
  struct_failure : Option String := none
  /-- separate-path stream contents and trailing failure -/
  stream_chunks : List StreamChunk := []
  stream_failure : Option String := none
  /-- outcome of awaiting the parallel message-sentiment task -/
  analyze_outcome : Except String SentimentResult := Except.ok SentimentResult.neutral
  /-- awaiting the parallel cumulative task raising (e.g. cancellation) -/
  parallel_crash : Option String := none
  /-- incremental LLM call outcome inside the parallel cumulative task -/
  parallel_llm : Except String (Option IncrementalLLMReply) := Except.ok none
  /-- incremental LLM call outcome of the synchronous recompute after a
  parallel-task failure -/
  retry_llm : Except String (Option IncrementalLLMReply) := Except.ok none
  /-- incremental LLM call outcome of the sequential cumulative update -/
  seq_llm : Except String (Option IncrementalLLMReply) := Except.ok none
  /-- assistant-message insert+flush -/
  assistant_persist : Except String Unit := Except.ok ()

/-- Observable outcome of one `process_chat_stream` run: the SSE event trace
and the persistence effects (the user row flushed before `start`, the
assistant row with its content and thoughts, and the cumulative sentiment
state written to the conversation). -/
structure ChatOutcome where
  events : List SSEEvent
  user_persisted : Bool
  assistant_message : Option (String × List String)
  state_assigned : Option CumulativeState
deriving Repr, DecidableEq

/-- The post-stream phase of `process_chat_stream`: reconcile the cumulative
sentiment (parallel task with its fallback recompute, or the sequential
update), write the new state to the conversation, persist the assistant
message, then emit `sentiment` and `done` — or the single `error` event when
the assistant flush raises. -/
def finish_phase (s : ChatScript) (start_event : SSEEvent)
    (current_state : CumulativeState) (sentiment_model : String)
    (evs : List SSEEvent) (resp : String) (ths : List String)
    (msent : Option SentimentResult) (parallel_ran : Bool) : ChatOutcome :=
  let upd :=
    if parallel_ran then
      match s.parallel_crash with
      | none =>
        IncrementalSentimentAnalyzer.update s.message current_state none
          s.provider sentiment_model s.parallel_llm
      | some _ =>
        IncrementalSentimentAnalyzer.update s.message current_state msent
          s.provider sentiment_model s.retry_llm
    else
      IncrementalSentimentAnalyzer.update s.message current_state msent
        s.provider sentiment_model s.seq_llm
  match s.assistant_persist with
  | Except.error e =>
    { events := start_event :: evs ++ [SSEEvent.error e]
      user_persisted := true
      assistant_message := none
      state_assigned := some upd.2 }
  | Except.ok _ =>
    { events := start_event :: evs ++
        [SSEEvent.sentiment msent (some upd.1), SSEEvent.done "stop"]
      user_persisted := true
      assistant_message := some (resp, ths)
      state_assigned := some upd.2 }

/-- `ChatOrchestrator.process_chat_stream` as a pure function of the
script of external-call outcomes.  The whole generator body sits in one
`try` whose handler yields a single `error` event carrying `str(e)`, so a
failure in any phase truncates the trace with that event. -/
def process_chat_stream (s : ChatScript) : ChatOutcome :=
  match s.pre_start with
  | Except.error e =>
    { events := [SSEEvent.error e]
      user_persisted := false
      assistant_message := none
      state_assigned := none }
  | Except.ok pre =>
    let start_event := SSEEvent.start pre.conversation_id pre.user_message_id
    let current_state := CumulativeState.from_dict pre.sentiment_state
    let sentiment_model := if s.provider = "gemini" then "gemini-2.5-flash" else "gpt-4.1"
    match s.get_adapter_failure with
    | some e =>
      { events := [start_event, SSEEvent.error e]
        user_persisted := true
        assistant_message := none
        state_assigned := none }
    | none =>
      if s.sentiment_method = "structured" then
        let r := consume_structured s.struct_chunks s.struct_failure s.provider s.model
        match r.2.2.2.2 with
        | some e =>
          { events := start_event :: r.1 ++ [SSEEvent.error e]
            user_persisted := true
            assistant_message := none
            state_assigned := none }
        | none =>
          finish_phase s start_event current_state sentiment_model
            r.1 r.2.1 r.2.2.1 r.2.2.2.1 false
      else
        let r := consume_stream s.stream_chunks s.stream_failure
        match r.2.2.2 with
        | some e =>
          { events := start_event :: r.1 ++ [SSEEvent.error e]
            user_persisted := true
            assistant_message := none
            state_assigned := none }
        | none =>
          let msent :=
            match s.analyze_outcome with
            | Except.ok r => some r
            | Except.error _ => some SentimentResult.neutral
          finish_phase s start_event current_state sentiment_model
            r.1 r.2.1 r.2.2.1 msent
            (decide (s.provider = "gemini" ∧ 0 < current_state.count))

/-- One user turn of a conversation, as the inputs that reach the
cumulative-sentiment update for that turn. -/
structure TurnScript where
  message : String
  message_sentiment : Option SentimentResult
  provider : String
  model : String
  llm_call : Except String (Option IncrementalLLMReply)

/-- Folding the cumulative state of a conversation through successive
completed user turns (each turn persists the state the update returns, the
next turn restores it). -/
def run_turns (init : CumulativeState) (turns : List TurnScript) : CumulativeState :=
  turns.foldl
    (fun st t =>
      (IncrementalSentimentAnalyzer.update t.message st t.message_sentiment
        t.provider t.model t.llm_call).2)
    init

/-! ## Concrete scripts used in counterexamples and witnesses -/

/-- A run whose database work fails before the `start` event is emitted. -/
def c1_failing_script : ChatScript :=
  { message := "Hello"
    pre_start := Except.error "db connection refused" }

/-- A run whose LLM stream raises after one delivered token; the exception
text contains a secret. -/
def c2_leak_script : ChatScript :=
  { message := "Tell me a joke"
    pre_start := Except.ok { conversation_id := "c1", user_message_id := 1, sentiment_state := none }
    stream_chunks := [{ content := "Hello" }]
    stream_failure := some "secret_api_key=abc123 leaked!" }

/-- A run whose LLM stream raises after two delivered tokens. -/
def c3_script : ChatScript :=
  { message := "Hi there"
    pre_start := Except.ok { conversation_id := "c3", user_message_id := 7, sentiment_state := none }
    stream_chunks := [{ content := "He" }, { content := "llo" }]
    stream_failure := some "upstream exploded" }

/-- A successfully completed run (used to witness the count invariant). -/
def c5_script : ChatScript :=
  { message := "Hello"
    pre_start := Except.ok { conversation_id := "c5", user_message_id := 2, sentiment_state := none }
    stream_chunks := [{ content := "Hi!" }, { content := "", is_final := true }] }

/-- A message sentiment whose LLM label disagrees with the label the score
maps to (score 0.05 is in the neutral band). -/
def c6_message_sentiment : SentimentResult :=
  { score := 1 / 20
    label := "Positive"
    source := "llm_separate"
    emotion := some "thrilled" }

/-- A run on a conversation with one prior turn in which every
sentiment-engine operation fails: the message-sentiment task raises, the
parallel cumulative task is lost, and both incremental LLM calls raise. -/
def c7_script : ChatScript :=
  { message := "Still here"
    pre_start := Except.ok
      { conversation_id := "c7"
        user_message_id := 9
        sentiment_state := some { summary := "User is cheerful", score := 1/2, count := 1, label := "Positive" } }
    stream_chunks := [{ content := "Sure" }, { content := "", is_final := true }]
    analyze_outcome := Except.error "sentiment model down"
    parallel_crash := some "task cancelled"
    parallel_llm := Except.error "incremental call failed"
    retry_llm := Except.error "incremental call failed again"
    seq_llm := Except.error "incremental call failed" }

/-- A successfully completed run used to witness the SSE framing. -/
def c10_script : ChatScript :=
  { message := "Hello"
    pre_start := Except.ok { conversation_id := "c10", user_message_id := 3, sentiment_state := none }
    stream_chunks := [{ content := "Hey", is_final := true }] }

/-! ## Helper lemmas -/

theorem update_count_succ (msg : String) (st : CumulativeState)
    (ms : Option SentimentResult) (provider model : String)
    (llm : Except String (Option IncrementalLLMReply)) :
    (IncrementalSentimentAnalyzer.update msg st ms provider model llm).2.count
      = st.count + 1 := by
  obtain ⟨su, sc, cnt, lab⟩ := st
  by_cases hp : provider = "gemini"
  · subst hp
    cases cnt with
    | zero =>
      cases ms with
      | none =>
        rcases llm with e | _ | r
        · rfl
        · rfl
        · rfl
      | some m => rfl
    | succ n =>
      cases ms with
      | none =>
        rcases llm with e | _ | r
        · rfl
        · rfl
        · rfl
      | some m =>
        rcases llm with e | _ | r
        · rfl
        · rfl
        · rfl
  · simp only [IncrementalSentimentAnalyzer.update, ne_eq, hp, not_false_eq_true, if_true]
    cases ms with
    | none => rfl
    | some m => rfl

theorem run_turns_count (init : CumulativeState) (turns : List TurnScript) :
    (run_turns init turns).count = init.count + turns.length := by
  induction turns generalizing init with
  | nil => simp [run_turns]
  | cons t rest ih =>
    have step := ih ((IncrementalSentimentAnalyzer.update t.message init
      t.message_sentiment t.provider t.model t.llm_call).2)
    simp only [run_turns, List.foldl_cons] at step ⊢
    rw [step, update_count_succ, List.length_cons]
    omega

theorem consume_stream_content (chunks : List StreamChunk) (failure : Option String) :
    ∀ ev ∈ (consume_stream chunks failure).1, ev.is_stream_content = true := by
  induction chunks with
  | nil => intro ev h; simp [consume_stream] at h
  | cons c rest ih =>
    intro ev h
    cases hf : c.is_final <;> cases ht : c.is_thought <;> by_cases hc : c.content = "" <;>
      simp only [consume_stream, hf, ht, hc, Bool.false_eq_true, ite_true, ite_false,
        if_true, if_false, List.mem_cons, List.not_mem_nil, or_false, ne_eq,
        not_false_eq_true, not_true_eq_false] at h <;>
      first
      | (rcases h with h | h
         · subst h; rfl
         · exact ih ev h)
      | (subst h; rfl)
      | exact ih ev h

theorem consume_stream_chunks_only (chunks : List StreamChunk) (failure : Option String)
    (hth : ∀ c ∈ chunks, c.is_thought = false) :
    ∀ ev ∈ (consume_stream chunks failure).1, ∃ ct, ev = SSEEvent.chunk ct := by
  induction chunks with
  | nil => intro ev h; simp [consume_stream] at h
  | cons c rest ih =>
    have hc0 : c.is_thought = false := hth c (List.mem_cons_self c rest)
    have hrest : ∀ x ∈ rest, x.is_thought = false :=
      fun x hx => hth x (List.mem_cons_of_mem c hx)
    intro ev h
    cases hf : c.is_final <;> by_cases hc : c.content = "" <;>
      simp only [consume_stream, hf, hc0, hc, Bool.false_eq_true, ite_true, ite_false,
        if_true, if_false, List.mem_cons, List.not_mem_nil, or_false, ne_eq,
        not_false_eq_true, not_true_eq_false] at h <;>
      first
      | (rcases h with h | h
         · exact ⟨c.content, h⟩
         · exact ih hrest ev h)
      | exact ⟨c.content, h⟩
      | exact ih hrest ev h

theorem consume_structured_content (chunks : List StructuredStreamChunk)
    (failure : Option String) (provider model : String) :
    ∀ ev ∈ (consume_structured chunks failure provider model).1,
      ev.is_stream_content = true := by
  induction chunks with
  | nil => intro ev h; simp [consume_structured] at h
  | cons c rest ih =>
    intro ev h
    cases hf : c.is_final <;> cases ht : c.is_thought <;> by_cases hc : c.content = "" <;>
      simp only [consume_structured, hf, ht, hc, Bool.false_eq_true, ite_true, ite_false,
        if_true, if_false, List.mem_cons, List.not_mem_nil, or_false, ne_eq,
        not_false_eq_true, not_true_eq_false] at h <;>
      first
      | (rcases h with h | h
         · subst h; rfl
         · exact ih ev h)
      | (subst h; rfl)
      | exact ih ev h

theorem stream_content_not_error (ev : SSEEvent) (h : ev.is_stream_content = true) :
    ev.is_error = false := by
  cases ev <;> simp_all [SSEEvent.is_stream_content, SSEEvent.is_error]

theorem finish_phase_state_count (s : ChatScript) (start_event : SSEEvent)
    (current_state : CumulativeState) (sentiment_model : String)
    (evs : List SSEEvent) (resp : String) (ths : List String)
    (msent : Option SentimentResult) (parallel_ran : Bool) (st : CumulativeState)
    (h : (finish_phase s start_event current_state sentiment_model
            evs resp ths msent parallel_ran).state_assigned = some st) :
    st.count = current_state.count + 1 := by
  unfold finish_phase at h
  rcases hap : s.assistant_persist with e | u <;>
    rw [hap] at h <;>
    simp only [Option.some.injEq] at h <;>
    subst h <;>
    split <;>
    first
    | exact update_count_succ ..
    | (split <;> exact update_count_succ ..)

theorem finish_phase_events (s : ChatScript) (start_event : SSEEvent)
    (current_state : CumulativeState) (sentiment_model : String)
    (evs : List SSEEvent) (resp : String) (ths : List String)
    (msent : Option SentimentResult) (parallel_ran : Bool) :
    (∃ m c, (finish_phase s start_event current_state sentiment_model
        evs resp ths msent parallel_ran).events
        = start_event :: (evs ++ [SSEEvent.sentiment m c, SSEEvent.done "stop"]))
    ∨ (∃ e, (finish_phase s start_event current_state sentiment_model
        evs resp ths msent parallel_ran).events
        = start_event :: (evs ++ [SSEEvent.error e])) := by
  unfold finish_phase
  rcases hap : s.assistant_persist with e | u
  · exact Or.inr ⟨e, rfl⟩
  · exact Or.inl ⟨msent, _, rfl⟩

theorem process_chat_stream_shape (s : ChatScript) :
    (∃ e, s.pre_start = Except.error e
      ∧ (process_chat_stream s).events = [SSEEvent.error e])
    ∨ (∃ cid mid middle last,
        (process_chat_stream s).events = SSEEvent.start cid mid :: (middle ++ last)
        ∧ (∀ ev ∈ middle, ev.is_stream_content = true)
        ∧ ((∃ m c, last = [SSEEvent.sentiment m c, SSEEvent.done "stop"])
            ∨ (∃ e, last = [SSEEvent.error e]))) := by
  unfold process_chat_stream
  rcases hps : s.pre_start with e | pre
  · exact Or.inl ⟨e, rfl, rfl⟩
  · right
    refine ⟨pre.conversation_id, pre.user_message_id, ?_⟩
    rcases hga : s.get_adapter_failure with _ | e
    · by_cases hm : s.sentiment_method = "structured"
      · simp only [hm, if_true, ite_true]
        rcases herr :
            (consume_structured s.struct_chunks s.struct_failure s.provider s.model).2.2.2.2
          with _ | e
        · rcases finish_phase_events s
              (SSEEvent.start pre.conversation_id pre.user_message_id)
              (CumulativeState.from_dict pre.sentiment_state)
              (if s.provider = "gemini" then "gemini-2.5-flash" else "gpt-4.1")
              (consume_structured s.struct_chunks s.struct_failure s.provider s.model).1
              (consume_structured s.struct_chunks s.struct_failure s.provider s.model).2.1
              (consume_structured s.struct_chunks s.struct_failure s.provider s.model).2.2.1
              (consume_structured s.struct_chunks s.struct_failure s.provider s.model).2.2.2.1
              false with ⟨m, c, hev⟩ | ⟨e, hev⟩
          · exact ⟨_, _, hev, consume_structured_content s.struct_chunks s.struct_failure s.provider s.model, Or.inl ⟨m, c, rfl⟩⟩
          · exact ⟨_, _, hev, consume_structured_content s.struct_chunks s.struct_failure s.provider s.model, Or.inr ⟨e, rfl⟩⟩
        · exact ⟨_, _, rfl, consume_structured_content s.struct_chunks s.struct_failure s.provider s.model, Or.inr ⟨e, rfl⟩⟩
      · simp only [hm, if_false, ite_false]
        rcases herr : (consume_stream s.stream_chunks s.stream_failure).2.2.2 with _ | e
        · rcases finish_phase_events s
              (SSEEvent.start pre.conversation_id pre.user_message_id)
              (CumulativeState.from_dict pre.sentiment_state)
              (if s.provider = "gemini" then "gemini-2.5-flash" else "gpt-4.1")
              (consume_stream s.stream_chunks s.stream_failure).1
              (consume_stream s.stream_chunks s.stream_failure).2.1
              (consume_stream s.stream_chunks s.stream_failure).2.2.1
              (match s.analyze_outcome with
                | Except.ok r => some r
                | Except.error _ => some SentimentResult.neutral)
              (decide (s.provider = "gemini"
                ∧ 0 < (CumulativeState.from_dict pre.sentiment_state).count))
            with ⟨m, c, hev⟩ | ⟨e, hev⟩
          · exact ⟨_, _, hev, consume_stream_content s.stream_chunks s.stream_failure, Or.inl ⟨m, c, rfl⟩⟩
          · exact ⟨_, _, hev, consume_stream_content s.stream_chunks s.stream_failure, Or.inr ⟨e, rfl⟩⟩
        · exact ⟨_, _, rfl, consume_stream_content s.stream_chunks s.stream_failure, Or.inr ⟨e, rfl⟩⟩
    · exact ⟨[], [SSEEvent.error e], rfl, by simp, Or.inr ⟨e, rfl⟩⟩

theorem getLast_cons_append_pair (x a b : SSEEvent) (l : List SSEEvent) :
    (x :: (l ++ [a, b])).getLast? = some b := by
  have h : x :: (l ++ [a, b]) = (x :: (l ++ [a])) ++ [b] := by simp
  rw [h, List.getLast?_concat]

theorem finish_phase_ok_trace (s : ChatScript) (start_event : SSEEvent)
    (current_state : CumulativeState) (sentiment_model : String)
    (evs : List SSEEvent) (resp : String) (ths : List String)
    (msent : Option SentimentResult) (parallel_ran : Bool)
    (hap : s.assistant_persist = Except.ok ())
    (hcontent : ∀ ev ∈ evs, ev.is_stream_content = true)
    (hstart : start_event.is_error = false) :
    (finish_phase s start_event current_state sentiment_model
        evs resp ths msent parallel_ran).events.getLast?
      = some (SSEEvent.done "stop")
    ∧ ∀ ev ∈ (finish_phase s start_event current_state sentiment_model
        evs resp ths msent parallel_ran).events, ev.is_error = false := by
  have hev : (finish_phase s start_event current_state sentiment_model
      evs resp ths msent parallel_ran).events
      = start_event :: (evs ++
          [SSEEvent.sentiment msent
            (some (if parallel_ran then
                match s.parallel_crash with
                | none =>
                  IncrementalSentimentAnalyzer.update s.message current_state none
                    s.provider sentiment_model s.parallel_llm
                | some _ =>
                  IncrementalSentimentAnalyzer.update s.message current_state msent
                    s.provider sentiment_model s.retry_llm
              else
                IncrementalSentimentAnalyzer.update s.message current_state msent
                  s.provider sentiment_model s.seq_llm).1),
           SSEEvent.done "stop"]) := by
    unfold finish_phase
    rw [hap]
    rfl
  rw [hev]
  constructor
  · exact getLast_cons_append_pair ..
  · intro ev hmem
    rcases List.mem_cons.mp hmem with h | h
    · subst h; exact hstart
    · rcases List.mem_append.mp h with h | h
      · exact stream_content_not_error ev (hcontent ev h)
      · rcases List.mem_cons.mp h with h | h
        · subst h; rfl
        · rcases List.mem_cons.mp h with h | h
          · subst h; rfl
          · simp at h

/-! ## Claim theorems -/

/-- Claim C4: the cumulative-sentiment weighted-average fallback is a
deterministic pure function of the old score, the count and the message
score: for every state and message sentiment it returns
`new_score = (old_score·count + message_score·1)/(count+1)`, the label
mapped from the new score by `score_to_label`, the summary unchanged and
the count incremented by one; on the state `(count 3, score 0.2)` with a
message scored `0.8` the new score is `0.35`. -/
theorem fallback_weighted_average_formula :
    (∀ (st : CumulativeState) (ms : SentimentResult),
      (weighted_average_fallback st ms).2.score
          = (st.score * (st.count : Rat) + ms.score * 1) / ((st.count : Rat) + 1)
        ∧ (weighted_average_fallback st ms).2.label
            = score_to_label ((weighted_average_fallback st ms).2.score)
        ∧ (weighted_average_fallback st ms).2.summary = st.summary
        ∧ (weighted_average_fallback st ms).2.count = st.count + 1
        ∧ (weighted_average_fallback st ms).1.score
            = (weighted_average_fallback st ms).2.score)
    ∧ (weighted_average_fallback
          { summary := "", score := 2/10, count := 3, label := "Neutral" }
          { score := 8/10, label := "Positive", source := "llm_separate" }).2.score
        = 35/100 := by
  refine ⟨fun st ms => ⟨rfl, rfl, rfl, rfl, rfl⟩, ?_⟩
  norm_num [weighted_average_fallback]

/-- Claim C5: `IncrementalSentimentAnalyzer.update` increments the state
count by exactly one on every branch; consequently folding the state of a
conversation through N completed user turns from the fresh state gives
count N, and one successfully completed pipeline run persists a state whose
count is the restored count plus one. -/
theorem update_count_invariant :
    (∀ (msg : String) (st : CumulativeState) (ms : Option SentimentResult)
        (provider model : String) (llm : Except String (Option IncrementalLLMReply)),
      (IncrementalSentimentAnalyzer.update msg st ms provider model llm).2.count
        = st.count + 1)
    ∧ (∀ turns : List TurnScript, (run_turns {} turns).count = turns.length)
    ∧ (∀ (s : ChatScript) (st : CumulativeState) (pre : PreStart),
        s.pre_start = Except.ok pre →
        (process_chat_stream s).state_assigned = some st →
        st.count = (CumulativeState.from_dict pre.sentiment_state).count + 1) := by
  refine ⟨fun msg st ms provider model llm => update_count_succ .., fun turns => ?_, ?_⟩
  · have h := run_turns_count {} turns
    simpa using h
  · intro s st pre hpre h
    unfold process_chat_stream at h
    simp only [hpre] at h
    rcases hga : s.get_adapter_failure with _ | e <;> simp only [hga] at h
    · by_cases hm : s.sentiment_method = "structured"
      · rw [if_pos hm] at h
        rcases herr :
            (consume_structured s.struct_chunks s.struct_failure s.provider s.model).2.2.2.2
          with _ | e <;> simp only [herr] at h
        · exact finish_phase_state_count _ _ _ _ _ _ _ _ _ _ h
        · exact Option.noConfusion h
      · rw [if_neg hm] at h
        rcases herr : (consume_stream s.stream_chunks s.stream_failure).2.2.2
          with _ | e <;> simp only [herr] at h
        · exact finish_phase_state_count _ _ _ _ _ _ _ _ _ _ h
        · exact Option.noConfusion h
    · exact Option.noConfusion h

/-- Witness for C5: a completed run over a fresh conversation persists a
cumulative state with count 1. -/
theorem update_count_invariant_witness :
    ({ summary := "User is neutral", score := 0, count := 1, label := "Neutral" }
        : CumulativeState).count
      = (CumulativeState.from_dict none).count + 1 :=
  update_count_invariant.2.2 c5_script
    { summary := "User is neutral", score := 0, count := 1, label := "Neutral" }
    { conversation_id := "c5", user_message_id := 2, sentiment_state := none }
    rfl (by decide)

/-- Claim C6 counterexample: seeding is not applied for every provider.
With provider openai, count 0 and a message sentiment labelled Positive
(score 0.05), the update takes the weighted-average path: the returned
state keeps the empty summary (no emotion phrase) and its label is the
score-mapped Neutral, not the copied message label. -/
theorem seeding_not_applied_for_all_providers :
    (IncrementalSentimentAnalyzer.update "hi" {} (some c6_message_sentiment)
        "openai" "gpt-4.1" (Except.ok none)).2
      = { summary := "", score := 1/20, count := 1, label := "Neutral" }
    ∧ c6_message_sentiment.label = "Positive"
    ∧ ¬ (IncrementalSentimentAnalyzer.update "hi" {} (some c6_message_sentiment)
        "openai" "gpt-4.1" (Except.ok none)).2.label = c6_message_sentiment.label := by
  refine ⟨?_, rfl, ?_⟩ <;>
    (norm_num [IncrementalSentimentAnalyzer.update, weighted_average_fallback,
      score_to_label, c6_message_sentiment]; simp)

/-- Claim C6 (amended): for the gemini provider, every update call with
`count = 0` and a non-null message sentiment seeds directly — score and
label copied from the message sentiment, count 1, and the summary is the
emotion phrase derived from the message emotion or lowercased label; in
particular the cumulative score equals the message score on the first
turn. -/
theorem seeding_rule_gemini (msg model : String) (st : CumulativeState)
    (ms : SentimentResult) (llm : Except String (Option IncrementalLLMReply))
    (h : st.count = 0) :
    IncrementalSentimentAnalyzer.update msg st (some ms) "gemini" model llm
      = ({ score := ms.score
           label := ms.label
           emotion := ms.emotion
           summary := some ("User is " ++ emotion_or_label ms)
           source := "incremental" },
         { summary := "User is " ++ emotion_or_label ms
           score := ms.score
           count := 1
           label := ms.label }) := by
  obtain ⟨su, sc, cnt, lab⟩ := st
  have h2 : cnt = 0 := h
  subst h2
  rfl

/-- Witness for the amended C6 at a concrete first-turn input. -/
theorem seeding_rule_gemini_witness :
    IncrementalSentimentAnalyzer.update "Hello there" {} (some c6_message_sentiment)
        "gemini" "gemini-2.5-flash" (Except.ok none)
      = ({ score := c6_message_sentiment.score
           label := c6_message_sentiment.label
           emotion := c6_message_sentiment.emotion
           summary := some ("User is " ++ emotion_or_label c6_message_sentiment)
           source := "incremental" },
         { summary := "User is " ++ emotion_or_label c6_message_sentiment
           score := c6_message_sentiment.score
           count := 1
           label := c6_message_sentiment.label }) :=
  seeding_rule_gemini "Hello there" "gemini-2.5-flash" {} c6_message_sentiment
    (Except.ok none) rfl

/-- Claim C7: the sentiment engine absorbs its own LLM-call failures — when
the incremental call raises on a state that has prior turns and a message
sentiment is available, the update equals the weighted-average fallback —
and such failures never surface as pipeline errors: a run whose
non-sentiment operations all succeed ends with `done` and emits no `error`
event, whatever the sentiment outcomes (including all-failing ones). -/
theorem sentiment_failures_absorbed :
    (∀ (msg model e : String) (st : CumulativeState) (ms : SentimentResult),
      st.count ≠ 0 →
      IncrementalSentimentAnalyzer.update msg st (some ms) "gemini" model (Except.error e)
        = weighted_average_fallback st ms)
    ∧ (∀ (s : ChatScript) (pre : PreStart),
        s.pre_start = Except.ok pre →
        s.get_adapter_failure = none →
        s.sentiment_method ≠ "structured" →
        (consume_stream s.stream_chunks s.stream_failure).2.2.2 = none →
        s.assistant_persist = Except.ok () →
        ((process_chat_stream s).events.getLast? = some (SSEEvent.done "stop")
          ∧ ∀ ev ∈ (process_chat_stream s).events, ev.is_error = false)) := by
  constructor
  · intro msg model e st ms h
    obtain ⟨su, sc, cnt, lab⟩ := st
    cases cnt with
    | zero => simp at h
    | succ n => rfl
  · intro s pre hpre hga hm herr hap
    have hred : process_chat_stream s
        = finish_phase s (SSEEvent.start pre.conversation_id pre.user_message_id)
            (CumulativeState.from_dict pre.sentiment_state)
            (if s.provider = "gemini" then "gemini-2.5-flash" else "gpt-4.1")
            (consume_stream s.stream_chunks s.stream_failure).1
            (consume_stream s.stream_chunks s.stream_failure).2.1
            (consume_stream s.stream_chunks s.stream_failure).2.2.1
            (match s.analyze_outcome with
              | Except.ok r => some r
              | Except.error _ => some SentimentResult.neutral)
            (decide (s.provider = "gemini"
              ∧ 0 < (CumulativeState.from_dict pre.sentiment_state).count)) := by
      unfold process_chat_stream
      simp only [hpre, hga, if_neg hm, herr]
    rw [hred]
    exact finish_phase_ok_trace s _ _ _ _ _ _ _ _ hap
      (consume_stream_content s.stream_chunks s.stream_failure) rfl

/-- Witness for C7: on the state with one prior turn, a raising incremental
call with an available message sentiment reduces to the weighted-average
fallback, and the all-sentiment-failures run still ends with `done`. -/
theorem sentiment_failures_absorbed_witness :
    (IncrementalSentimentAnalyzer.update "Still here"
        { summary := "User is cheerful", score := 1/2, count := 1, label := "Positive" }
        (some SentimentResult.neutral) "gemini" "gemini-2.5-flash"
        (Except.error "incremental call failed")
      = weighted_average_fallback
          { summary := "User is cheerful", score := 1/2, count := 1, label := "Positive" }
          SentimentResult.neutral)
    ∧ (process_chat_stream c7_script).events.getLast? = some (SSEEvent.done "stop") :=
  ⟨sentiment_failures_absorbed.1 "Still here" "gemini-2.5-flash" "incremental call failed"
      { summary := "User is cheerful", score := 1/2, count := 1, label := "Positive" }
      SentimentResult.neutral (by decide),
   (sentiment_failures_absorbed.2 c7_script
      { conversation_id := "c7"
        user_message_id := 9
        sentiment_state := some
          { summary := "User is cheerful", score := 1/2, count := 1, label := "Positive" } }
      rfl rfl (by decide) rfl rfl).1⟩

/-- Claim C8: with rate limiting enabled and the store reachable, a check is
allowed exactly when the post-insertion window count is at most the limit,
and the reported remaining is `max 0 (limit - count)`; at the boundary,
`count = limit` is allowed with remaining 0 and `count = limit + 1` is
denied. -/
theorem rate_limit_boundary :
    (∀ (limit count : Nat) (fc : Bool),
      ((RateLimitService.check_limit true (Except.ok count) limit fc).1 = true
          ↔ count ≤ limit)
        ∧ (RateLimitService.check_limit true (Except.ok count) limit fc).2
            = max 0 ((limit : Int) - (count : Int)))
    ∧ (∀ (limit : Nat) (fc : Bool),
        RateLimitService.check_limit true (Except.ok limit) limit fc = (true, 0))
    ∧ (∀ (limit : Nat) (fc : Bool),
        (RateLimitService.check_limit true (Except.ok (limit + 1)) limit fc).1 = false) := by
  refine ⟨fun limit count fc => ⟨?_, rfl⟩, fun limit fc => ?_, fun limit fc => ?_⟩
  · simp [RateLimitService.check_limit]
  · simp [RateLimitService.check_limit, Prod.ext_iff]
  · simp [RateLimitService.check_limit]

/-- Claim C9: when the store operation raises, the authentication check
fails closed (denied, remaining 0) while the general and chat checks fail
open (allowed, remaining -1). -/
theorem rate_limit_failure_policy :
    (∀ (e : String) (auth_limit : Nat),
      RateLimitService.check_auth_limit true (Except.error e) auth_limit = (false, 0))
    ∧ (∀ (e : String) (general_limit : Nat),
      RateLimitService.check_general_limit true (Except.error e) general_limit = (true, -1))
    ∧ (∀ (e : String) (chat_limit : Nat),
      RateLimitService.check_chat_limit true (Except.error e) chat_limit = (true, -1)) :=
  ⟨fun e l => rfl, fun e l => rfl, fun e l => rfl⟩

/-- Claim C1 counterexample: when a failure occurs before the `start` event
(here: the database work preceding it raises), the stream is the single
`error` event, so the first emitted event is not `start`. -/
theorem first_event_not_start_on_pre_start_failure :
    (process_chat_stream c1_failing_script).events
        = [SSEEvent.error "db connection refused"]
    ∧ (process_chat_stream c1_failing_script).events.head?.map SSEEvent.is_start
        = some false :=
  ⟨rfl, rfl⟩

/-- Claim C1 (amended): either a failure occurs before `start` and the
emitted sequence is the single `error` event, or the sequence is `start`,
followed by forwarded `chunk`/`thought` events only, terminated either by
`sentiment` (carrying the reconciled message and cumulative results)
immediately followed by `done`, or by a single trailing `error`; in every
case the last event is `done` or `error`. -/
theorem stream_event_ordering (s : ChatScript) :
    (∃ e, s.pre_start = Except.error e
      ∧ (process_chat_stream s).events = [SSEEvent.error e])
    ∨ (∃ cid mid middle last,
        (process_chat_stream s).events = SSEEvent.start cid mid :: (middle ++ last)
        ∧ (∀ ev ∈ middle, ev.is_stream_content = true)
        ∧ ((∃ m c, last = [SSEEvent.sentiment m c, SSEEvent.done "stop"])
            ∨ (∃ e, last = [SSEEvent.error e]))) :=
  process_chat_stream_shape s

/-- Claim C2 (code bug): once streaming has started, a failure is converted
into exactly one `error` event, but its `message` payload is the raw
exception text (`str(e)`) rather than a sanitized generic string: with an
exception whose text contains a secret, the emitted event carries that text
verbatim. -/
theorem error_event_carries_raw_exception_text :
    (process_chat_stream c2_leak_script).events
      = [SSEEvent.start "c1" 1, SSEEvent.chunk "Hello",
         SSEEvent.error "secret_api_key=abc123 leaked!"] := by
  rfl

/-- Claim C3: when the LLM stream raises mid-generation after `start`, the
client receives `start`, the forwarded `chunk` events (no thoughts were
streamed), then exactly one `error` event; no assistant message is
persisted while the user message flushed before `start` survives. -/
theorem midstream_failure_keeps_user_message (s : ChatScript) (pre : PreStart) (e : String)
    (h1 : s.pre_start = Except.ok pre)
    (h2 : s.get_adapter_failure = none)
    (h3 : s.sentiment_method ≠ "structured")
    (h4 : (consume_stream s.stream_chunks s.stream_failure).2.2.2 = some e)
    (h5 : ∀ c ∈ s.stream_chunks, c.is_thought = false) :
    (process_chat_stream s).events
        = SSEEvent.start pre.conversation_id pre.user_message_id
            :: ((consume_stream s.stream_chunks s.stream_failure).1 ++ [SSEEvent.error e])
      ∧ (∀ ev ∈ (consume_stream s.stream_chunks s.stream_failure).1,
          ∃ ct, ev = SSEEvent.chunk ct)
      ∧ ((process_chat_stream s).events.filter SSEEvent.is_error).length = 1
      ∧ (process_chat_stream s).assistant_message = none
      ∧ (process_chat_stream s).user_persisted = true := by
  have hout : process_chat_stream s =
      { events := SSEEvent.start pre.conversation_id pre.user_message_id
          :: ((consume_stream s.stream_chunks s.stream_failure).1 ++ [SSEEvent.error e])
        user_persisted := true
        assistant_message := none
        state_assigned := none } := by
    unfold process_chat_stream
    simp only [h1, h2, if_neg h3, h4]
    rfl
  have hchunks := consume_stream_chunks_only s.stream_chunks s.stream_failure h5
  refine ⟨by rw [hout], hchunks, ?_, by rw [hout], by rw [hout]⟩
  rw [hout]
  have hnil : ((consume_stream s.stream_chunks s.stream_failure).1.filter
      SSEEvent.is_error) = [] := by
    rw [List.filter_eq_nil_iff]
    intro a ha
    obtain ⟨ct, rfl⟩ := hchunks a ha
    simp [SSEEvent.is_error]
  simp [List.filter_append, hnil, SSEEvent.is_error]

/-- Witness for C3 at a concrete failing stream. -/
theorem midstream_failure_keeps_user_message_witness :
    (process_chat_stream c3_script).events
        = SSEEvent.start "c3" 7
            :: ((consume_stream c3_script.stream_chunks c3_script.stream_failure).1
              ++ [SSEEvent.error "upstream exploded"])
      ∧ (∀ ev ∈ (consume_stream c3_script.stream_chunks c3_script.stream_failure).1,
          ∃ ct, ev = SSEEvent.chunk ct)
      ∧ ((process_chat_stream c3_script).events.filter SSEEvent.is_error).length = 1
      ∧ (process_chat_stream c3_script).assistant_message = none
      ∧ (process_chat_stream c3_script).user_persisted = true :=
  midstream_failure_keeps_user_message c3_script
    { conversation_id := "c3", user_message_id := 7, sentiment_state := none }
    "upstream exploded" rfl rfl (by decide) rfl (by decide)

/-- Claim C10 counterexample: the SSE framing is
`event: <type>\ndata: <JSON>\n\n` and attaches no `id:` line at all: no line
of a framed event starts with `id:`. -/
theorem sse_event_has_no_id_line :
    sse_event "start" "null" = "event: start\ndata: null\n\n"
    ∧ ((sse_event "start" "null").data.splitOn '\n').all
        (fun line => !(line.take 3 == ['i', 'd', ':'])) = true :=
  ⟨rfl, by decide⟩

/-- Claim C10 (amended): every event the stream emits is framed by
`sse_event` as `event: <type>\ndata: <JSON>\n\n`, with the type one of
`start`, `chunk`, `thought`, `sentiment`, `done`, `error`; no `id:` line is
attached. -/
theorem sse_event_framing (s : ChatScript) (ev : SSEEvent) (payload : String)
    (h : ev ∈ (process_chat_stream s).events) :
    sse_event ev.event_type payload
        = "event: " ++ ev.event_type ++ "\ndata: " ++ payload ++ "\n\n"
    ∧ ev.event_type ∈ ["start", "chunk", "thought", "sentiment", "done", "error"] := by
  refine ⟨rfl, ?_⟩
  cases ev <;> simp [SSEEvent.event_type]

/-- Witness for the amended C10 at a concrete emitted event. -/
theorem sse_event_framing_witness :
    sse_event (SSEEvent.done "stop").event_type "null"
        = "event: " ++ (SSEEvent.done "stop").event_type ++ "\ndata: " ++ "null" ++ "\n\n"
    ∧ (SSEEvent.done "stop").event_type
        ∈ ["start", "chunk", "thought", "sentiment", "done", "error"] :=
  sse_event_framing c10_script (SSEEvent.done "stop") "null" (by decide)

end LiaBackend
